import Mathlib

/-!
Shallow embedding of the audio decision compiler and mix-plan renderer of
the Manga-story-teller-automation repository.

Embedded source files:
  * `src/audio/audio_intelligence.py` — class `AudioIntelligence`
    (`process_audio_intent`, `resolve_attack_audio`,
    `calculate_attack_timing`, `_calculate_sfx_timestamp`);
  * `src/video/composer.py` — `mix_scene_audio` (filter-graph construction).

Modelling conventions:
  * Python floats are modelled as rationals (`ℚ`); the numeric literals of
    the source (0.3, 0.6, 2.0, 0.5, 12.5, …) are exact in `ℚ`.
  * `os.path.exists` is modelled as an environment parameter
    `fs : String → Bool` threaded through the functions.
  * Python dicts read with `.get(key, default)` are modelled as structures
    of `Option` fields; `.get` becomes `Option.getD`.
  * Python `print` calls are side effects with no bearing on the returned
    values and are dropped.
-/

namespace Manga

/-- Filesystem environment: `fs path = true` iff `os.path.exists(path)`. -/
def FS : Type := String → Bool

-- String constants used by the source (enum values, layer labels, paths).

def sNone : String := "none"
def sStatic : String := "static"
def sOver : String := "over"
def sBefore : String := "before"
def sAfter : String := "after"
def sDialogue : String := "dialogue"
def sBgmL : String := "bgm"
def sAmbienceL : String := "ambience"
def sSfxL : String := "sfx"
def sIntroL : String := "intro_stinger"
def sOutroL : String := "outro_stinger"
def sLow : String := "low"
def sMedium : String := "medium"
def sHigh : String := "high"
def sPunch : String := "punch"
def sExplosion : String := "explosion"
def sHit : String := "hit"
def sEmpty : String := ""

def bgm_calm_path : String := "assets/bgm/calm_loop.wav"
def bgm_tense_path : String := "assets/bgm/tense_loop.wav"
def bgm_heroic_path : String := "assets/bgm/heroic_loop.wav"
def bgm_sad_path : String := "assets/bgm/sad_loop.wav"
def sfx_punch_path : String := "assets/sfx/punch.wav"
def sfx_slash_path : String := "assets/sfx/slash.wav"
def sfx_explosion_path : String := "assets/sfx/explosion.wav"
def sfx_hit_path : String := "assets/sfx/hit.wav"
def amb_wind_path : String := "assets/ambience/wind.wav"
def amb_sea_path : String := "assets/ambience/sea.wav"
def amb_crowd_path : String := "assets/ambience/crowd.wav"
def amb_room_path : String := "assets/ambience/room.wav"
def intro_stinger_path : String := "assets/stingers/intro.wav"
def outro_stinger_path : String := "assets/stingers/outro.wav"

/-- Embeds `AudioIntelligence.BGM_MAP` (ENUM → file path); `.get` on a dict is
total with `none` for absent keys, hence the catch-all arm. -/
def BGM_MAP : String → Option String
  | "calm" => some bgm_calm_path
  | "tense" => some bgm_tense_path
  | "heroic" => some bgm_heroic_path
  | "sad" => some bgm_sad_path
  | _ => none

/-- Embeds `AudioIntelligence.SFX_MAP`. -/
def SFX_MAP : String → Option String
  | "punch" => some sfx_punch_path
  | "slash" => some sfx_slash_path
  | "explosion" => some sfx_explosion_path
  | "hit" => some sfx_hit_path
  | _ => none

/-- Embeds `AudioIntelligence.AMBIENCE_MAP`. -/
def AMBIENCE_MAP : String → Option String
  | "wind" => some amb_wind_path
  | "sea" => some amb_sea_path
  | "crowd" => some amb_crowd_path
  | "room" => some amb_room_path
  | _ => none

/-- Embeds `AudioIntelligence.STINGER_MAP`. -/
def STINGER_MAP : String → Option String
  | "intro" => some intro_stinger_path
  | "outro" => some outro_stinger_path
  | _ => none

/-- The `audio_intent` dict: enumerated directives, read with
`.get(key, default)`; absent keys are `none`. -/
structure AudioIntent where
  use_silence : Option Bool := none
  bgm : Option String := none
  ambience : Option String := none
  impact_sfx : Option String := none
  intro_stinger : Option Bool := none
  outro_stinger : Option Bool := none
  narration_placement : Option String := none
deriving DecidableEq, Repr

/-- The `camera_timing` dict: `{action, duration, intensity}`; only
`action` and `duration` are read by the audio code. -/
structure CameraTiming where
  action : Option String := none
  duration : Option ℚ := none
deriving DecidableEq, Repr

/-- The `attack_intent` dict.  The code reads keys `character`, `name` and
`intensity`; the data model of the spec names the attack field `attack_name`,
so the model carries both possible keys to express inputs that supply one
but not the other. -/
structure AttackIntent where
  character : Option String := none
  name : Option String := none
  attack_name : Option String := none
  intensity : Option String := none
deriving DecidableEq, Repr

/-- The dict returned by `process_audio_intent`. -/
structure AudioPlan where
  bgm_file : Option String
  ambience_file : Option String
  sfx_file : Option String
  sfx_timestamp : Option ℚ
  intro_stinger : Option String
  outro_stinger : Option String
  silence_before : ℚ
  duck_bgm : Bool
  layer_count : Nat
  narration_placement : String
  narration_duck_amount : ℚ
  attack_audio : Option String
  attack_timestamp : Option ℚ
  missing_assets : List String
  character_audio_fallback : Bool
deriving DecidableEq, Repr

def sIntro : String := "intro"
def sOutro : String := "outro"

/-- Python `str.lower()`: lowercase character by character.  (Core
`String.toLower` is extensionally the same map but recurses on the byte
position, which blocks kernel evaluation; this structural version maps
`Char.toLower` over the character list.) -/
def pyLower (s : String) : String := ⟨s.data.map Char.toLower⟩

/-- Embeds `AudioIntelligence.resolve_attack_audio`: try
`assets/characters/{character}/attacks/{attack_name}` with `.wav` then
`.mp3`; return the first existing path, else `none`. -/
def resolve_attack_audio (fs : FS) (character : String) (attack_name : String) :
    Option String :=
  let wav := "assets/characters/" ++ character ++ "/attacks/" ++ attack_name ++ ".wav"
  let mp3 := "assets/characters/" ++ character ++ "/attacks/" ++ attack_name ++ ".mp3"
  if fs wav then some wav else if fs mp3 then some mp3 else none

/-- Embeds `AudioIntelligence.calculate_attack_timing`: `0.0` when the camera
action is in the literal list `["shake", "zoom_in_fast", "shake_agressive"]`
(the third entry is spelled exactly as in the source), else half the
dialogue duration. -/
def calculate_attack_timing (camera_action : String) (dialogue_duration : ℚ) : ℚ :=
  if camera_action = "shake" ∨ camera_action = "zoom_in_fast" ∨
      camera_action = "shake_agressive" then 0
  else dialogue_duration / 2

/-- Embeds the private helper `_calculate_sfx_timestamp`: sync SFX with camera
motion (`shake` → 0, `zoom_in` → half the camera duration, `zoom_out`,
`pan_left`, `pan_right` → 0, anything else → 0). -/
def calculate_sfx_timestamp (camera_action : String) (camera_duration : ℚ) : ℚ :=
  if camera_action = "shake" then 0
  else if camera_action = "zoom_in" then camera_duration * (1/2)
  else if camera_action = "zoom_out" ∨ camera_action = "pan_left" ∨
      camera_action = "pan_right" then 0
  else 0

/-- The asset-validation idiom of `process_audio_intent`
(`if x and not os.path.exists(x): missing_assets.append(x); x = None`):
returns the possibly-degraded slot and the updated `missing_assets`. -/
def validate_asset (fs : FS) (file : Option String) (missing : List String) :
    Option String × List String :=
  match file with
  | some f => if fs f then (some f, missing) else (none, missing ++ [f])
  | none => (none, missing)

/-- Lines 141–155: confidence-gated impact-SFX resolution.  Returns
`(sfx_file, sfx_timestamp, missing_assets)`. -/
def sfx_stage (fs : FS) (audio_intent : AudioIntent) (camera_timing : CameraTiming)
    (scene_duration : ℚ) (confidence : ℚ) (missing : List String) :
    Option String × Option ℚ × List String :=
  if confidence ≥ 3/5 then
    match SFX_MAP (audio_intent.impact_sfx.getD sNone) with
    | some f =>
      if fs f then
        (some f,
         some (calculate_sfx_timestamp (camera_timing.action.getD sStatic)
           (camera_timing.duration.getD scene_duration)),
         missing)
      else (none, none, missing ++ [f])
    | none => (none, none, missing)
  else (none, none, missing)

/-- Lines 195–210: the layer manifest — dialogue always, then at most one
background layer (bgm over ambience), then at most one impact layer
(sfx over intro stinger over outro stinger). -/
def layers_of (bgm_file ambience_file sfx_file intro_stinger outro_stinger :
    Option String) : List String :=
  [sDialogue]
    ++ (if bgm_file.isSome then [sBgmL]
        else if ambience_file.isSome then [sAmbienceL] else [])
    ++ (if sfx_file.isSome then [sSfxL]
        else if intro_stinger.isSome then [sIntroL]
        else if outro_stinger.isSome then [sOutroL] else [])

/-- Lines 213–221: `layer_count = len(layers)`, then trim outro then intro
stingers while the count exceeds 3.  Returns
`(intro_stinger, outro_stinger, layer_count)`. -/
def trim_stage (layers : List String) (intro_stinger outro_stinger : Option String) :
    Option String × Option String × Nat :=
  if layers.length > 3 then
    let step1 : Option String × Nat :=
      if sOutroL ∈ layers then (none, layers.length - 1)
      else (outro_stinger, layers.length)
    let step2 : Option String × Nat :=
      if step1.2 > 3 ∧ sIntroL ∈ layers then (none, step1.2 - 1)
      else (intro_stinger, step1.2)
    (step2.1, step1.1, step2.2)
  else (intro_stinger, outro_stinger, layers.length)

/-- Line 262: generic fallback SFX name derived from the attack intensity. -/
def fallback_sfx_name (intensity : String) : String :=
  if intensity = sLow then sPunch
  else if intensity = sHigh then sExplosion
  else sHit

/-- Result of the character-attack block (lines 231–271): the attack slot,
the possibly-updated sfx slot and timestamp, the updated layer count and
the fallback flag. -/
structure AttackStage where
  attack_audio : Option String
  attack_timestamp : Option ℚ
  sfx_file : Option String
  sfx_timestamp : Option ℚ
  layer_count : Nat
  character_audio_fallback : Bool
deriving DecidableEq, Repr

/-- Lines 237–271: process the attack intent.  The attack name is read
from the dict key `name` (not `attack_name`); both character and name must
be non-empty (Python truthiness of strings).  On a resolved attack the
timing is computed and the layer count incremented.  On a miss: if a
generic sfx was requested (`impact_sfx != "none"`) but is inactive, only
the fallback flag is set; if none was requested, a generic sfx is derived
from the intensity — the existence check then only gates the timestamp,
the layer increment and the flag, not the slot assignment itself. -/
def attack_stage (fs : FS) (audio_intent : AudioIntent)
    (camera_timing : CameraTiming) (dialogue_duration : ℚ)
    (sfx_file : Option String) (sfx_timestamp : Option ℚ) (layer_count : Nat)
    (attack_intent : Option AttackIntent) : AttackStage :=
  match attack_intent with
  | some ai =>
    let character := pyLower (ai.character.getD sEmpty)
    let attack_name := pyLower (ai.name.getD sEmpty)
    if character ≠ sEmpty ∧ attack_name ≠ sEmpty then
      match resolve_attack_audio fs character attack_name with
      | some p =>
        ⟨some p,
         some (calculate_attack_timing (camera_timing.action.getD sStatic)
           dialogue_duration),
         sfx_file, sfx_timestamp, layer_count + 1, false⟩
      | none =>
        if sfx_file = none ∧ audio_intent.impact_sfx.getD sNone ≠ sNone then
          ⟨none, none, sfx_file, sfx_timestamp, layer_count, true⟩
        else if sfx_file = none then
          match SFX_MAP (fallback_sfx_name (ai.intensity.getD sMedium)) with
          | some f =>
            if fs f then
              ⟨none, none, some f,
               some (calculate_sfx_timestamp (camera_timing.action.getD sStatic)
                 (camera_timing.duration.getD dialogue_duration)),
               layer_count + 1, true⟩
            else ⟨none, none, some f, sfx_timestamp, layer_count, false⟩
          | none => ⟨none, none, none, sfx_timestamp, layer_count, false⟩
        else ⟨none, none, sfx_file, sfx_timestamp, layer_count, false⟩
    else ⟨none, none, sfx_file, sfx_timestamp, layer_count, false⟩
  | none => ⟨none, none, sfx_file, sfx_timestamp, layer_count, false⟩

/-- Embeds `AudioIntelligence.process_audio_intent`: the audio decision compiler.
Follows the statement order of the source; the `dialogue_intent` parameter of
the source is never read by the body and is omitted. -/
def process_audio_intent (fs : FS) (audio_intent : AudioIntent)
    (narration_text : String) (dialogue_duration : ℚ)
    (camera_timing : CameraTiming) (scene_duration : ℚ) (confidence : ℚ)
    (attack_intent : Option AttackIntent) : AudioPlan :=
  -- FIX #1: relative silence timing (30% of scene, max 2s)
  let silence0 : ℚ :=
    if audio_intent.use_silence.getD false then min 2 (scene_duration * (3/10))
    else 0
  -- FIX #2: silence exclusivity (silence → no ambience/bgm)
  let bgmAmb : Option String × Option String :=
    if audio_intent.use_silence.getD false then (none, none)
    else (BGM_MAP (audio_intent.bgm.getD sNone),
          AMBIENCE_MAP (audio_intent.ambience.getD sNone))
  let duck_bgm := true
  -- asset validation with graceful fallback
  let vBgm := validate_asset fs bgmAmb.1 []
  let bgm_file := vBgm.1
  let vAmb := validate_asset fs bgmAmb.2 vBgm.2
  let ambience_file := vAmb.1
  -- FIX #4: confidence-based SFX (disable if < 0.6)
  let sfx3 := sfx_stage fs audio_intent camera_timing scene_duration confidence vAmb.2
  let sfx_file := sfx3.1
  let sfx_timestamp := sfx3.2.1
  -- stingers with validation
  let intro0 : Option String :=
    if audio_intent.intro_stinger.getD false then STINGER_MAP sIntro else none
  let outro0 : Option String :=
    if audio_intent.outro_stinger.getD false then STINGER_MAP sOutro else none
  let vIntro := validate_asset fs intro0 sfx3.2.2
  let vOutro := validate_asset fs outro0 vIntro.2
  let missing_assets := vOutro.2
  -- narration placement logic (lines 171–188)
  let nar : String × ℚ × ℚ :=
    if narration_text ≠ sEmpty then
      let placement := audio_intent.narration_placement.getD sOver
      let silence1 :=
        if placement = sBefore then
          max silence0 ((narration_text.length : ℚ) / (150 * 5 / 60))
        else silence0
      (placement, 3/10, silence1)
    else (sNone, 0, silence0)
  let narration_placement := nar.1
  let narration_duck_amount := nar.2.1
  let silence_before := nar.2.2
  -- FIX #5: layer manifest and hard limit
  let layers := layers_of bgm_file ambience_file sfx_file vIntro.1 vOutro.1
  let ambience_file2 : Option String :=
    if bgm_file.isSome then none else ambience_file
  let trimmed := trim_stage layers vIntro.1 vOutro.1
  -- PART 6: character audio (attack)
  let st := attack_stage fs audio_intent camera_timing dialogue_duration
    sfx_file sfx_timestamp trimmed.2.2 attack_intent
  { bgm_file := bgm_file
    ambience_file := ambience_file2
    sfx_file := st.sfx_file
    sfx_timestamp := st.sfx_timestamp
    intro_stinger := trimmed.1
    outro_stinger := trimmed.2.1
    silence_before := silence_before
    duck_bgm := duck_bgm
    layer_count := st.layer_count
    narration_placement := narration_placement
    narration_duck_amount := narration_duck_amount
    attack_audio := st.attack_audio
    attack_timestamp := st.attack_timestamp
    missing_assets := missing_assets
    character_audio_fallback := st.character_audio_fallback }

/-!
Embedding of `mix_scene_audio` (`src/video/composer.py`, lines 32–250):
the construction of the FFmpeg filter graph and of the `audio_inputs`
list that feeds the final downmix.  Stream inputs (`[n:a]`) and named
filter pads (`[silence]`, `[bgm_ducked]`, …) are both labels; each
`filter_parts.append` of the source becomes one or more `FilterNode`
values with the same input labels, output label and gain parameter.
Input-level `-itsoffset` options, loop/trim/fade windows and the probed
durations do not affect which labels enter the mix and are not modelled;
the `personality_audio` block (lines 211–217) is dead for plans produced
by `process_audio_intent` (the plan dict carries no personality keys, so
`.get` yields `None`) and is omitted.
-/

/-- A label in the FFmpeg filter graph: an input stream `[n:a]` or a named
pad such as `[silence]`. -/
inductive Lbl where
  | stream (n : Nat)
  | named (s : String)
deriving DecidableEq, Repr

/-- One filter of the `-filter_complex` graph: input labels, the filter
kind, its gain/duration parameter when it has one, and its output label. -/
structure FilterNode where
  ins : List Lbl
  kind : String
  param : Option ℚ
  out : Lbl
deriving DecidableEq, Repr

/-- The parts of the FFmpeg invocation built by `mix_scene_audio` that
carry the mixing structure. -/
structure MixCmd where
  filter_parts : List FilterNode
  audio_inputs : List Lbl
  audio_map : Lbl
deriving DecidableEq, Repr

def kAnullsrc : String := "anullsrc"
def kConcat : String := "concat"
def kVolume : String := "volume"
def kVolumeDb : String := "volume_dB"
def kAmix : String := "amix"
def kVolAfade : String := "volume_afade"

def lSilence : String := "silence"
def lDWN : String := "dialogue_with_narration"
def lNarrVol : String := "narration_vol"
def lDialogueDucked : String := "dialogue_ducked"
def lBgmDucked : String := "bgm_ducked"
def lBgmVol : String := "bgm_vol"
def lAmbVol : String := "amb_vol"
def lSfxVol : String := "sfx_vol"
def lStingerVol : String := "stinger_vol"
def lAttackVol : String := "attack_vol"
def lFinal : String := "final_audio"

/-- Composer lines 101–129: narration placement handling.  The dialogue
input is stream 1; when narration is present and placement is not
`"none"`, stream 2 is the narration and `input_index` advances to 3 even
for an unrecognized placement (which then feeds nothing into the mix).
Returns `(filter nodes, audio_inputs additions, next input index)`. -/
def narration_mix_stage (narration_path : Option String)
    (narration_placement : String) : List FilterNode × List Lbl × Nat :=
  let dialogue_index := 1
  match narration_path with
  | some _ =>
    if narration_placement ≠ sNone then
      let narration_index := 2
      if narration_placement = sBefore then
        ([⟨[Lbl.stream narration_index, Lbl.stream dialogue_index], kConcat,
            none, Lbl.named lDWN⟩],
         [Lbl.named lDWN], 3)
      else if narration_placement = sOver then
        ([⟨[Lbl.stream narration_index], kVolume, some 1, Lbl.named lNarrVol⟩,
          ⟨[Lbl.stream dialogue_index], kVolume, some (3/5),
            Lbl.named lDialogueDucked⟩,
          ⟨[Lbl.named lNarrVol, Lbl.named lDialogueDucked], kAmix, none,
            Lbl.named lDWN⟩],
         [Lbl.named lDWN], 3)
      else if narration_placement = sAfter then
        ([⟨[Lbl.stream dialogue_index, Lbl.stream narration_index], kConcat,
            none, Lbl.named lDWN⟩],
         [Lbl.named lDWN], 3)
      else ([], [], 3)
    else ([], [Lbl.stream dialogue_index], 2)
  | none => ([], [Lbl.stream dialogue_index], 2)

/-- Composer lines 152–160: the `elif` ambience branch (volume 0.2 with
fades, looped to scene duration). -/
def ambience_branch (fs : FS) (ambience_file : Option String) (idx : Nat) :
    List FilterNode × List Lbl × Nat :=
  match ambience_file with
  | some f =>
    if fs f then
      ([⟨[Lbl.stream idx], kVolAfade, some (1/5), Lbl.named lAmbVol⟩],
       [Lbl.named lAmbVol], idx + 1)
    else ([], [], idx)
  | none => ([], [], idx)

/-- Composer lines 131–160: BGM (ducked to 0.2 when `duck_bgm` or
narration plays over, else 0.3), `elif` ambience. -/
def background_mix_stage (fs : FS) (bgm_file ambience_file : Option String)
    (duck_bgm : Bool) (narrOver : Bool) (idx : Nat) :
    List FilterNode × List Lbl × Nat :=
  match bgm_file with
  | some f =>
    if fs f then
      if duck_bgm || narrOver then
        ([⟨[Lbl.stream idx], kVolAfade, some (1/5), Lbl.named lBgmDucked⟩],
         [Lbl.named lBgmDucked], idx + 1)
      else
        ([⟨[Lbl.stream idx], kVolAfade, some (3/10), Lbl.named lBgmVol⟩],
         [Lbl.named lBgmVol], idx + 1)
    else ambience_branch fs ambience_file idx
  | none => ambience_branch fs ambience_file idx

/-- Composer lines 170–195: the `elif` chain over the stingers (volume
0.6; the outro additionally gets an `-itsoffset`, not modelled). -/
def stinger_branch (fs : FS) (intro_stinger outro_stinger : Option String)
    (idx : Nat) : List FilterNode × List Lbl × Nat :=
  match intro_stinger with
  | some f =>
    if fs f then
      ([⟨[Lbl.stream idx], kVolume, some (3/5), Lbl.named lStingerVol⟩],
       [Lbl.named lStingerVol], idx + 1)
    else
      match outro_stinger with
      | some g =>
        if fs g then
          ([⟨[Lbl.stream idx], kVolume, some (3/5), Lbl.named lStingerVol⟩],
           [Lbl.named lStingerVol], idx + 1)
        else ([], [], idx)
      | none => ([], [], idx)
  | none =>
    match outro_stinger with
    | some g =>
      if fs g then
        ([⟨[Lbl.stream idx], kVolume, some (3/5), Lbl.named lStingerVol⟩],
         [Lbl.named lStingerVol], idx + 1)
      else ([], [], idx)
    | none => ([], [], idx)

/-- Composer lines 162–195: impact SFX (volume 0.8, requires an existing
file and a non-`None` timestamp), `elif` the stinger chain. -/
def impact_mix_stage (fs : FS) (sfx_file : Option String)
    (sfx_timestamp : Option ℚ) (intro_stinger outro_stinger : Option String)
    (idx : Nat) : List FilterNode × List Lbl × Nat :=
  match sfx_file with
  | some f =>
    if fs f ∧ sfx_timestamp ≠ none then
      ([⟨[Lbl.stream idx], kVolume, some (4/5), Lbl.named lSfxVol⟩],
       [Lbl.named lSfxVol], idx + 1)
    else stinger_branch fs intro_stinger outro_stinger idx
  | none => stinger_branch fs intro_stinger outro_stinger idx

/-- Composer lines 201–208: attack audio at −4 dB, requires an existing
file and a non-`None` timestamp. -/
def attack_track_stage (fs : FS) (attack_audio : Option String)
    (attack_timestamp : Option ℚ) (idx : Nat) :
    List FilterNode × List Lbl × Nat :=
  match attack_audio with
  | some f =>
    if fs f ∧ attack_timestamp ≠ none then
      ([⟨[Lbl.stream idx], kVolumeDb, some (-4), Lbl.named lAttackVol⟩],
       [Lbl.named lAttackVol], idx + 1)
    else ([], [], idx)
  | none => ([], [], idx)

/-- Embeds `mix_scene_audio` (composer lines 32–250), restricted to the filter
graph and mix-input structure.  Line 90–94: when `silence_before > 0` an
`anullsrc` source of that duration is appended with output pad
`[silence]`; `silence_before` is used nowhere else in the function.  The
final `amix` combines exactly `audio_inputs` when more than one is
present. -/
def mix_scene_audio (fs : FS) (p : AudioPlan) (narration_path : Option String) :
    MixCmd :=
  let silence_nodes : List FilterNode :=
    if p.silence_before > 0 then
      [⟨[], kAnullsrc, some p.silence_before, Lbl.named lSilence⟩]
    else []
  let nar := narration_mix_stage narration_path p.narration_placement
  let bg := background_mix_stage fs p.bgm_file p.ambience_file p.duck_bgm
    (narration_path.isSome && (p.narration_placement == sOver)) nar.2.2
  let imp := impact_mix_stage fs p.sfx_file p.sfx_timestamp p.intro_stinger
    p.outro_stinger bg.2.2
  let atk := attack_track_stage fs p.attack_audio p.attack_timestamp imp.2.2
  let audio_inputs := nar.2.1 ++ bg.2.1 ++ imp.2.1 ++ atk.2.1
  let pre := silence_nodes ++ nar.1 ++ bg.1 ++ imp.1 ++ atk.1
  if audio_inputs.length > 1 then
    { filter_parts := pre ++ [⟨audio_inputs, kAmix, none, Lbl.named lFinal⟩]
      audio_inputs := audio_inputs
      audio_map := Lbl.named lFinal }
  else
    { filter_parts := pre
      audio_inputs := audio_inputs
      audio_map := audio_inputs.headD (Lbl.stream 1) }

/-! Concrete environments and inputs used by counterexamples and
witnesses. -/

def sCalm : String := "calm"
def sShake : String := "shake"
def sZoomInFast : String := "zoom_in_fast"
/-- The misspelled camera action string of the source (line 331). -/
def sShakeAgressive : String := "shake_agressive"
/-- The correctly spelled camera action of the data model in the spec. -/
def sShakeAggressive : String := "shake_aggressive"
def sLuffy : String := "luffy"
def sGumGumPistol : String := "gum_gum_pistol"
def luffy_attack_wav : String := "assets/characters/luffy/attacks/gum_gum_pistol.wav"
def luffy_attack_mp3 : String := "assets/characters/luffy/attacks/gum_gum_pistol.mp3"
def text26 : String := "abcdefghijklmnopqrstuvwxyz"

/-- Environment in which every asset exists. -/
def fsAll : FS := fun _ => true

/-- Environment in which no asset exists. -/
def fsNone : FS := fun _ => false

/-- Environment in which exactly the four generic SFX files exist. -/
def fsSfxOnly : FS := fun s =>
  [sfx_punch_path, sfx_slash_path, sfx_explosion_path, sfx_hit_path].contains s

/-- Environment in which everything exists except the punch SFX and the
luffy attack files. -/
def fsNoPunch : FS := fun s =>
  !(s == sfx_punch_path) && !(s == luffy_attack_wav) && !(s == luffy_attack_mp3)

/-- Camera timing dict with both keys absent. -/
def ct0 : CameraTiming := {}

/-- The attack intent of the scenario in the spec, under the key `name` the code
reads. -/
def ai_luffy : AttackIntent :=
  { character := some sLuffy, name := some sGumGumPistol, intensity := some sHigh }

/-- The same attack intent supplied under the field `attack_name` of the spec,
with no `name` key. -/
def ai_luffy_attack_name : AttackIntent :=
  { character := some sLuffy, attack_name := some sGumGumPistol,
    intensity := some sHigh }

/-- An audio intent with every key absent. -/
def intent0 : AudioIntent := {}

/-- An audio intent requesting only silence. -/
def intentSilence : AudioIntent := { use_silence := some true }

/-- Silence plus narration placed before the scene. -/
def intentSilenceBefore : AudioIntent :=
  { use_silence := some true, narration_placement := some sBefore }

/-- All three impact slots requested at once. -/
def intentAllImpact : AudioIntent :=
  { impact_sfx := some sPunch, intro_stinger := some true,
    outro_stinger := some true }

/-- BGM plus intro stinger (no sfx request). -/
def intentBgmIntro : AudioIntent :=
  { bgm := some sCalm, intro_stinger := some true }

/-- A punch sfx request. -/
def intentPunch : AudioIntent := { impact_sfx := some sPunch }

/-- BGM plus narration placed before the scene. -/
def intentBgmBefore : AudioIntent :=
  { bgm := some sCalm, narration_placement := some sBefore }

/-- A narration audio file handle for the renderer. -/
def narrPath : String := "narr.wav"

/-! ## Theorems settling the claims -/

/-- C1 counterexample: with `use_silence = true`, a 26-character narration
text placed `before`, and `scene_duration = 10`, the produced plan has
`silence_before = 52/25` (the estimated narration read-time 26/12.5),
while `min(2.0, 0.3·10) = 2 < 52/25`; so `silence_lead_in` neither equals
`min(2.0, 0.3·scene_duration)` nor lies in `[0, min(2.0,
0.3·scene_duration)]`.  Moreover with `use_silence = true` and the
negative `scene_duration = -2` (no narration at all), the plan has
`silence_before = -3/5 < 0`, below the claimed interval. -/
theorem C1_cex :
    (process_audio_intent fsAll intentSilenceBefore text26 1 ct0 10 1
        none).silence_before = 52/25 ∧
    min (2 : ℚ) (10 * (3/10)) = 2 ∧ (2 : ℚ) < 52/25 ∧
    (process_audio_intent fsAll intentSilence sEmpty 1 ct0 (-2) 1
        none).silence_before = -3/5 ∧ (-3/5 : ℚ) < 0 := by
  with_unfolding_all decide

/-- C2 counterexample: with `confidence = 1/2 < 0.6`, no requested
`impact_sfx`, and an attack intent whose bespoke audio is missing while
the generic explosion asset exists, the sfx slot of the plan is filled by the
attack fallback — so low confidence does not force `sfx_file = none`. -/
theorem C2_cex :
    ((1 : ℚ)/2 < 3/5) ∧
    (process_audio_intent fsSfxOnly intent0 sEmpty 1 ct0 10 (1/2)
        (some ai_luffy)).sfx_file = some sfx_explosion_path := by
  with_unfolding_all decide

/-- C3 counterexample: bgm + intro stinger (3 base layers) plus an attack
whose bespoke audio is missing and whose fallback sfx exists yields
`layer_count = 4` although `attack_audio = none` — the cap of 3 layers
excluding attack audio is exceeded by the fallback sfx layer. -/
theorem C3_cex :
    (process_audio_intent fsNoPunch intentBgmIntro sEmpty 1 ct0 10 (1/2)
        (some ai_luffy)).layer_count = 4 ∧
    (process_audio_intent fsNoPunch intentBgmIntro sEmpty 1 ct0 10 (1/2)
        (some ai_luffy)).attack_audio = none := by
  with_unfolding_all decide

/-- C4 counterexample: requesting `impact_sfx = punch`, an intro stinger
and an outro stinger at once (all assets present, confidence 1) returns a
plan in which all three impact slots are non-none simultaneously. -/
theorem C4_cex :
    (process_audio_intent fsAll intentAllImpact sEmpty 1 ct0 10 1
        none).sfx_file = some sfx_punch_path ∧
    (process_audio_intent fsAll intentAllImpact sEmpty 1 ct0 10 1
        none).intro_stinger = some intro_stinger_path ∧
    (process_audio_intent fsAll intentAllImpact sEmpty 1 ct0 10 1
        none).outro_stinger = some outro_stinger_path := by
  with_unfolding_all decide

/-- C5 failing input: with no assets on disk, a named attack with no
requested generic sfx leaves the synthesized fallback path
`assets/sfx/explosion.wav` in the sfx slot even though its existence
check failed, records nothing in `missing_assets`, and sets neither a
timestamp nor the fallback flag. -/
theorem C5_bug :
    (process_audio_intent fsNone intent0 sEmpty 1 ct0 10 1
        (some ai_luffy)).sfx_file = some sfx_explosion_path ∧
    fsNone sfx_explosion_path = false ∧
    (process_audio_intent fsNone intent0 sEmpty 1 ct0 10 1
        (some ai_luffy)).missing_assets.contains sfx_explosion_path = false ∧
    (process_audio_intent fsNone intent0 sEmpty 1 ct0 10 1
        (some ai_luffy)).sfx_timestamp = none ∧
    (process_audio_intent fsNone intent0 sEmpty 1 ct0 10 1
        (some ai_luffy)).character_audio_fallback = false := by
  with_unfolding_all decide

/-- C6 counterexample: a camera dict with no `action` key and a negative
`scene_duration = -1` is accepted without any error: the compiler returns
an ordinary plan (here with `silence_before = -3/10` and one layer)
instead of failing fast with a typed `MalformedIntent` error — no such
error type exists in the code. -/
theorem C6_cex :
    (process_audio_intent fsAll intentSilence sEmpty 1 ct0 (-1) 1
        none).silence_before = -3/10 ∧
    (process_audio_intent fsAll intentSilence sEmpty 1 ct0 (-1) 1
        none).layer_count = 1 := by
  with_unfolding_all decide

/-- C8 failing input: a silence-only plan (`silence_before = 2`) makes the
renderer emit a single dangling `anullsrc` node labelled `silence` that no
other filter consumes; the mixed audio is just the dialogue stream, and in
a richer graph (narration before + bgm, `silence_before = 52/25`) every
node avoids the `silence` pad among its inputs and the final `amix` mixes
only dialogue-with-narration and bgm — nothing is prepended. -/
theorem C8_bug :
    (process_audio_intent fsAll intentSilence sEmpty 1 ct0 10 1
        none).silence_before = 2 ∧
    (mix_scene_audio fsAll
        (process_audio_intent fsAll intentSilence sEmpty 1 ct0 10 1 none)
        none).filter_parts
      = [⟨[], kAnullsrc, some 2, Lbl.named lSilence⟩] ∧
    (mix_scene_audio fsAll
        (process_audio_intent fsAll intentSilence sEmpty 1 ct0 10 1 none)
        none).audio_inputs = [Lbl.stream 1] ∧
    (mix_scene_audio fsAll
        (process_audio_intent fsAll intentSilence sEmpty 1 ct0 10 1 none)
        none).audio_map = Lbl.stream 1 ∧
    (process_audio_intent fsAll intentBgmBefore text26 1 ct0 10 1
        none).silence_before = 52/25 ∧
    ((mix_scene_audio fsAll
        (process_audio_intent fsAll intentBgmBefore text26 1 ct0 10 1 none)
        (some narrPath)).filter_parts.map
      (fun n => n.ins.contains (Lbl.named lSilence)))
      = [false, false, false, false] ∧
    (mix_scene_audio fsAll
        (process_audio_intent fsAll intentBgmBefore text26 1 ct0 10 1 none)
        (some narrPath)).audio_inputs.contains (Lbl.named lSilence) = false := by
  with_unfolding_all decide

/-- C9 counterexample: a requested `impact_sfx = punch` whose asset is
missing leaves no generic sfx active; the bespoke attack audio is also
missing and `intensity = high`, so the claim requires a synthesized
explosion sfx (its asset exists) — but the code only sets
`character_audio_fallback = true` and leaves `sfx_file = none`. -/
theorem C9_cex :
    fsNoPunch sfx_explosion_path = true ∧
    (process_audio_intent fsNoPunch intentPunch sEmpty 1 ct0 10 1
        (some ai_luffy)).sfx_file = none ∧
    (process_audio_intent fsNoPunch intentPunch sEmpty 1 ct0 10 1
        (some ai_luffy)).character_audio_fallback = true := by
  with_unfolding_all decide

/-- Lowercasing the empty string yields the empty string. -/
lemma pyLower_empty : pyLower sEmpty = sEmpty := rfl

/-- The attack stage is the identity on the sfx slot, timestamp and layer
count when no attack intent is supplied. -/
lemma attack_stage_none (fs : FS) (intent : AudioIntent) (ct : CameraTiming)
    (dd : ℚ) (s : Option String) (t : Option ℚ) (lc : Nat) :
    attack_stage fs intent ct dd s t lc none = ⟨none, none, s, t, lc, false⟩ :=
  rfl

/-- An attack intent with no `name` key behaves like no attack intent at
all: the empty attack name fails the truthiness test. -/
lemma attack_stage_no_name (fs : FS) (intent : AudioIntent)
    (ct : CameraTiming) (dd : ℚ) (s : Option String) (t : Option ℚ) (lc : Nat)
    (ai : AttackIntent) (h : ai.name = none) :
    attack_stage fs intent ct dd s t lc (some ai) =
      attack_stage fs intent ct dd s t lc none := by
  simp [attack_stage, h, pyLower_empty]

/-- The silence lead-in of a produced plan, in the absence of a `before`
narration placement, is `min 2 (0.3·scene_duration)` under `use_silence`
and `0` otherwise. -/
lemma silence_before_eq (fs : FS) (intent : AudioIntent) (nt : String)
    (dd : ℚ) (ct : CameraTiming) (sd conf : ℚ) (ai : Option AttackIntent)
    (h : nt = sEmpty ∨ intent.narration_placement.getD sOver ≠ sBefore) :
    (process_audio_intent fs intent nt dd ct sd conf ai).silence_before =
      (if intent.use_silence.getD false then min 2 (sd * (3/10)) else 0) := by
  rcases h with h | h
  · subst h
    simp [process_audio_intent]
  · by_cases hnt : nt = sEmpty
    · subst hnt
      simp [process_audio_intent]
    · simp [process_audio_intent, hnt, h]

/-- Under `use_silence` both background slots of a produced plan are
`none`. -/
lemma use_silence_background (fs : FS) (intent : AudioIntent) (nt : String)
    (dd : ℚ) (ct : CameraTiming) (sd conf : ℚ) (ai : Option AttackIntent)
    (h : intent.use_silence.getD false = true) :
    (process_audio_intent fs intent nt dd ct sd conf ai).bgm_file = none ∧
    (process_audio_intent fs intent nt dd ct sd conf ai).ambience_file = none := by
  simp [process_audio_intent, h, validate_asset]

/-- Low confidence disables the main-stage impact sfx resolution. -/
lemma sfx_stage_lowconf (fs : FS) (intent : AudioIntent) (ct : CameraTiming)
    (sd conf : ℚ) (h : conf < 3/5) (missing : List String) :
    sfx_stage fs intent ct sd conf missing = (none, none, missing) := by
  unfold sfx_stage
  rw [if_neg (not_le.mpr h)]

/-- When the attack stage starts with an empty sfx slot, the final sfx
slot is either still empty or the intensity-derived generic fallback. -/
lemma attack_stage_sfx_of_none (fs : FS) (intent : AudioIntent)
    (ct : CameraTiming) (dd : ℚ) (t : Option ℚ) (lc : Nat)
    (ai : Option AttackIntent) :
    (attack_stage fs intent ct dd none t lc ai).sfx_file = none ∨
    ∃ a, ai = some a ∧ (attack_stage fs intent ct dd none t lc ai).sfx_file
      = SFX_MAP (fallback_sfx_name (a.intensity.getD sMedium)) := by
  cases ai with
  | none => exact Or.inl rfl
  | some a =>
    by_cases h1 : pyLower (a.character.getD sEmpty) ≠ sEmpty ∧
        pyLower (a.name.getD sEmpty) ≠ sEmpty
    · cases hres : resolve_attack_audio fs (pyLower (a.character.getD sEmpty))
          (pyLower (a.name.getD sEmpty)) with
      | some p =>
        simp [attack_stage, h1, hres]
      | none =>
        by_cases h2 : intent.impact_sfx.getD sNone = sNone
        · cases hmap : SFX_MAP (fallback_sfx_name (a.intensity.getD sMedium)) with
          | some f =>
            by_cases hf : fs f = true
            · refine Or.inr ⟨a, rfl, ?_⟩
              simp [attack_stage, h1, hres, h2, hmap, hf]
            · refine Or.inr ⟨a, rfl, ?_⟩
              simp [attack_stage, h1, hres, h2, hmap, hf]
          | none =>
            simp [attack_stage, h1, hres, h2, hmap]
        · simp [attack_stage, h1, hres, h2]
    · simp [attack_stage, h1]

/-- The layer manifest never exceeds three entries. -/
lemma layers_of_length_le (b a s i o : Option String) :
    (layers_of b a s i o).length ≤ 3 := by
  unfold layers_of
  split_ifs <;> simp

/-- Trimming never increases the layer count above the manifest length. -/
lemma trim_stage_count_le (L : List String) (i o : Option String) :
    (trim_stage L i o).2.2 ≤ L.length := by
  simp only [trim_stage]
  split_ifs <;> (dsimp only; omega)

/-- The attack stage adds at most one layer. -/
lemma attack_stage_count_le (fs : FS) (intent : AudioIntent)
    (ct : CameraTiming) (dd : ℚ) (s : Option String) (t : Option ℚ) (lc : Nat)
    (ai : Option AttackIntent) :
    (attack_stage fs intent ct dd s t lc ai).layer_count ≤ lc + 1 := by
  cases ai with
  | none => simp [attack_stage]
  | some a =>
    by_cases h1 : pyLower (a.character.getD sEmpty) ≠ sEmpty ∧
        pyLower (a.name.getD sEmpty) ≠ sEmpty
    · cases hres : resolve_attack_audio fs (pyLower (a.character.getD sEmpty))
          (pyLower (a.name.getD sEmpty)) with
      | some p => simp [attack_stage, h1, hres]
      | none =>
        by_cases h2 : s = none ∧ intent.impact_sfx.getD sNone ≠ sNone
        · simp [attack_stage, h1, hres, h2]
        · by_cases h3 : s = none
          · cases hmap : SFX_MAP (fallback_sfx_name (a.intensity.getD sMedium)) with
            | some f =>
              by_cases hf : fs f = true <;>
                simp [attack_stage, h1, hres, h2, h3, hmap, hf] <;>
                split_ifs <;> simp
            | none =>
              simp [attack_stage, h1, hres, h2, h3, hmap]
              split_ifs <;> simp
          · simp [attack_stage, h1, hres, h2, h3]
    · simp [attack_stage, h1]

/-- C1 (amended): for every input, unconditionally, `use_silence = true`
forces both background slots to none.  When no narration is placed
`before` (narration text empty or placement ≠ before), `silence_before`
equals `min(2.0, 0.3·scene_duration)` under `use_silence`; when
additionally `scene_duration ≥ 0`, the plan satisfies
`silence_before ∈ [0, min(2.0, 0.3·scene_duration)]`.  (A `before`
narration placement raises `silence_before` above the claimed bound, and
a negative scene duration under `use_silence` puts it below 0 — both
shown by the counterexample.) -/
theorem C1_amended (fs : FS) (intent : AudioIntent) (nt : String) (dd : ℚ)
    (ct : CameraTiming) (sd conf : ℚ) (ai : Option AttackIntent) :
    (intent.use_silence.getD false = true →
      (process_audio_intent fs intent nt dd ct sd conf ai).bgm_file = none ∧
      (process_audio_intent fs intent nt dd ct sd conf ai).ambience_file
        = none) ∧
    ((nt = sEmpty ∨ intent.narration_placement.getD sOver ≠ sBefore) →
      intent.use_silence.getD false = true →
      (process_audio_intent fs intent nt dd ct sd conf ai).silence_before
        = min 2 (sd * (3/10))) ∧
    ((nt = sEmpty ∨ intent.narration_placement.getD sOver ≠ sBefore) →
      0 ≤ sd →
      0 ≤ (process_audio_intent fs intent nt dd ct sd conf ai).silence_before ∧
      (process_audio_intent fs intent nt dd ct sd conf ai).silence_before
        ≤ min 2 (sd * (3/10))) := by
  refine ⟨fun hu => use_silence_background fs intent nt dd ct sd conf ai hu,
    fun hnar hu => ?_, fun hnar hsd => ?_⟩
  · rw [silence_before_eq fs intent nt dd ct sd conf ai hnar, if_pos hu]
  · have hmin : (0 : ℚ) ≤ min 2 (sd * (3/10)) :=
      le_min (by norm_num) (mul_nonneg hsd (by norm_num))
    rw [silence_before_eq fs intent nt dd ct sd conf ai hnar]
    split_ifs with hu
    · exact ⟨hmin, le_refl _⟩
    · exact ⟨le_refl 0, hmin⟩

/-- C1 witness: the amended statement fully discharged at a silence-only
intent with no narration and scene duration 10. -/
theorem C1_witness :
    (process_audio_intent fsAll intentSilence sEmpty 1 ct0 10 1 none).bgm_file
      = none ∧
    (process_audio_intent fsAll intentSilence sEmpty 1 ct0 10 1
        none).ambience_file = none ∧
    (process_audio_intent fsAll intentSilence sEmpty 1 ct0 10 1
        none).silence_before = min 2 (10 * (3/10)) ∧
    0 ≤ (process_audio_intent fsAll intentSilence sEmpty 1 ct0 10 1
        none).silence_before ∧
    (process_audio_intent fsAll intentSilence sEmpty 1 ct0 10 1
        none).silence_before ≤ min 2 (10 * (3/10)) :=
  ⟨((C1_amended fsAll intentSilence sEmpty 1 ct0 10 1 none).1 rfl).1,
   ((C1_amended fsAll intentSilence sEmpty 1 ct0 10 1 none).1 rfl).2,
   (C1_amended fsAll intentSilence sEmpty 1 ct0 10 1 none).2.1
     (Or.inl rfl) rfl,
   ((C1_amended fsAll intentSilence sEmpty 1 ct0 10 1 none).2.2
     (Or.inl rfl) (by norm_num)).1,
   ((C1_amended fsAll intentSilence sEmpty 1 ct0 10 1 none).2.2
     (Or.inl rfl) (by norm_num)).2⟩

/-- C2 (amended): for `confidence < 0.6` the requested `impact_sfx` is
never resolved into the plan — the sfx slot is none unless the
attack-audio fallback path fills it with the intensity-derived generic
sfx of a supplied attack intent. -/
theorem C2_amended (fs : FS) (intent : AudioIntent) (nt : String) (dd : ℚ)
    (ct : CameraTiming) (sd conf : ℚ) (ai : Option AttackIntent)
    (h : conf < 3/5) :
    (process_audio_intent fs intent nt dd ct sd conf ai).sfx_file = none ∨
    ∃ a, ai = some a ∧
      (process_audio_intent fs intent nt dd ct sd conf ai).sfx_file
        = SFX_MAP (fallback_sfx_name (a.intensity.getD sMedium)) := by
  have hsfx := sfx_stage_lowconf fs intent ct sd conf h
  simp only [process_audio_intent, hsfx]
  exact attack_stage_sfx_of_none fs intent ct dd none _ ai

/-- C2 witness: the amended statement at confidence 1/2 with no attack
intent (left disjunct). -/
theorem C2_witness :
    ((1 : ℚ)/2 < 3/5) ∧
    ((process_audio_intent fsAll intent0 sEmpty 1 ct0 10 (1/2)
        none).sfx_file = none ∨
      ∃ a, (none : Option AttackIntent) = some a ∧
        (process_audio_intent fsAll intent0 sEmpty 1 ct0 10 (1/2)
            none).sfx_file
          = SFX_MAP (fallback_sfx_name (a.intensity.getD sMedium))) :=
  ⟨by norm_num,
   C2_amended fsAll intent0 sEmpty 1 ct0 10 (1/2) none (by norm_num)⟩

/-- C3 (amended): `layer_count` never exceeds 4, and never exceeds 3 when
no attack intent is supplied; the fourth layer can come either from
resolved attack audio or from the generic-sfx fallback of the attack stage (in
the latter case `attack_audio` is none — see the counterexample). -/
theorem C3_amended (fs : FS) (intent : AudioIntent) (nt : String) (dd : ℚ)
    (ct : CameraTiming) (sd conf : ℚ) (ai : Option AttackIntent) :
    (process_audio_intent fs intent nt dd ct sd conf ai).layer_count ≤ 4 ∧
    (ai = none →
      (process_audio_intent fs intent nt dd ct sd conf ai).layer_count ≤ 3) := by
  constructor
  · simp only [process_audio_intent]
    exact le_trans (attack_stage_count_le _ _ _ _ _ _ _ _)
      (Nat.succ_le_succ (le_trans (trim_stage_count_le _ _ _)
        (layers_of_length_le _ _ _ _ _)))
  · rintro rfl
    simp only [process_audio_intent, attack_stage_none]
    exact le_trans (trim_stage_count_le _ _ _) (layers_of_length_le _ _ _ _ _)

/-- C3 witness: the amended statement at a plain intent with no attack. -/
theorem C3_witness :
    (process_audio_intent fsAll intent0 sEmpty 1 ct0 10 1 none).layer_count
      ≤ 4 ∧
    (process_audio_intent fsAll intent0 sEmpty 1 ct0 10 1 none).layer_count
      ≤ 3 :=
  ⟨(C3_amended fsAll intent0 sEmpty 1 ct0 10 1 none).1,
   (C3_amended fsAll intent0 sEmpty 1 ct0 10 1 none).2 rfl⟩

/-- C6 (amended): the compiler never raises: there is no `MalformedIntent`
error type anywhere in the code, missing intent fields silently default
(a camera dict without `action` falls back to `static`, enum fields to
`none`), and a non-positive `scene_duration` is accepted, producing a
plan whose `silence_before = min(2.0, 0.3·scene_duration) ≤ 0` under
`use_silence` — totality of `process_audio_intent` models that the only
exception-free behaviour is to return a plan. -/
theorem C6_amended (fs : FS) (intent : AudioIntent) (nt : String) (dd : ℚ)
    (ct : CameraTiming) (sd conf : ℚ) (ai : Option AttackIntent)
    (hsd : sd ≤ 0) (hu : intent.use_silence.getD false = true)
    (hnar : nt = sEmpty ∨ intent.narration_placement.getD sOver ≠ sBefore) :
    (process_audio_intent fs intent nt dd ct sd conf ai).silence_before
      = min 2 (sd * (3/10)) ∧
    (process_audio_intent fs intent nt dd ct sd conf ai).silence_before ≤ 0 := by
  have hs := silence_before_eq fs intent nt dd ct sd conf ai hnar
  rw [hs, if_pos hu]
  refine ⟨rfl, ?_⟩
  exact le_trans (min_le_right _ _)
    (mul_nonpos_iff.mpr (Or.inr ⟨hsd, by norm_num⟩))

/-- C6 witness: the amended statement at scene duration −1 and a camera
dict with no `action` key. -/
theorem C6_witness :
    ((-1 : ℚ) ≤ 0 ∧ intentSilence.use_silence.getD false = true ∧
      (sEmpty = sEmpty ∨ intentSilence.narration_placement.getD sOver ≠ sBefore)) ∧
    ((process_audio_intent fsAll intentSilence sEmpty 1 ct0 (-1) 1
        none).silence_before = min 2 ((-1) * (3/10)) ∧
    (process_audio_intent fsAll intentSilence sEmpty 1 ct0 (-1) 1
        none).silence_before ≤ 0) :=
  ⟨⟨by norm_num, rfl, Or.inl rfl⟩,
   C6_amended fsAll intentSilence sEmpty 1 ct0 (-1) 1 none (by norm_num) rfl
     (Or.inl rfl)⟩

/-- C7 counterexample: for the correctly spelled camera action
`shake_aggressive` the attack-timing resolver returns
`dialogue_duration / 2.0` (here 2.0), not 0.0 as the claim states — the
source matches the misspelled string `shake_agressive` only. -/
theorem C7_cex : calculate_attack_timing sShakeAggressive 4 = 2 := by
  simp only [calculate_attack_timing, sShakeAggressive]
  rw [if_neg (by decide)]
  norm_num

/-- C7 (amended): `calculate_attack_timing` returns 0.0 exactly for the
three literal strings of the source, `shake`, `zoom_in_fast` and the
misspelled `shake_agressive`; every other camera action — including the
correctly spelled `shake_aggressive` — yields `dialogue_duration / 2.0`. -/
theorem C7_amended (ca : String) (dd : ℚ)
    (h1 : (ca == sShake) = false) (h2 : (ca == sZoomInFast) = false)
    (h3 : (ca == sShakeAgressive) = false) :
    calculate_attack_timing sShake dd = 0 ∧
    calculate_attack_timing sZoomInFast dd = 0 ∧
    calculate_attack_timing sShakeAgressive dd = 0 ∧
    calculate_attack_timing sShakeAggressive dd = dd / 2 ∧
    calculate_attack_timing ca dd = dd / 2 := by
  simp only [beq_eq_false_iff_ne, ne_eq, sShake, sZoomInFast,
    sShakeAgressive] at h1 h2 h3
  refine ⟨?_, ?_, ?_, ?_, ?_⟩ <;>
    simp [calculate_attack_timing, sShake, sZoomInFast, sShakeAgressive,
      sShakeAggressive, h1, h2, h3]

/-- C7 witness: the amended statement instantiated at the camera action
`static` with a 4-second dialogue. -/
theorem C7_witness :
    ((sStatic == sShake) = false ∧ (sStatic == sZoomInFast) = false ∧
      (sStatic == sShakeAgressive) = false) ∧
    (calculate_attack_timing sShake 4 = 0 ∧
     calculate_attack_timing sZoomInFast 4 = 0 ∧
     calculate_attack_timing sShakeAgressive 4 = 0 ∧
     calculate_attack_timing sShakeAggressive 4 = 4 / 2 ∧
     calculate_attack_timing sStatic 4 = 4 / 2) :=
  ⟨⟨by decide, by decide, by decide⟩,
   C7_amended sStatic 4 (by decide) (by decide) (by decide)⟩

/-- C9 (amended): the attack stage synthesizes a generic sfx only when no
generic impact sfx was requested at all (`impact_sfx` enum absent or
`none`): then, for an attack intent with non-empty character and name
whose bespoke asset is missing, the sfx slot is set from
`attack_intent.intensity` (`low→punch`, `high→explosion`, else→`hit`) and
— when the fallback asset exists — given a timestamp, with
`character_audio_fallback = true`.  (When a generic sfx was requested but
is inactive, only the flag is set and nothing is synthesized — see the
counterexample.) -/
theorem C9_amended (fs : FS) (intent : AudioIntent) (nt : String) (dd : ℚ)
    (ct : CameraTiming) (sd conf : ℚ) (a : AttackIntent) (f : String)
    (h1 : intent.impact_sfx.getD sNone = sNone)
    (h2 : pyLower (a.character.getD sEmpty) ≠ sEmpty)
    (h3 : pyLower (a.name.getD sEmpty) ≠ sEmpty)
    (h4 : resolve_attack_audio fs (pyLower (a.character.getD sEmpty))
        (pyLower (a.name.getD sEmpty)) = none)
    (h5 : SFX_MAP (fallback_sfx_name (a.intensity.getD sMedium)) = some f)
    (h6 : fs f = true) :
    (process_audio_intent fs intent nt dd ct sd conf (some a)).sfx_file
      = some f ∧
    (process_audio_intent fs intent nt dd ct sd conf (some a)).sfx_timestamp
      = some (calculate_sfx_timestamp (ct.action.getD sStatic)
          (ct.duration.getD dd)) ∧
    (process_audio_intent fs intent nt dd ct sd conf
        (some a)).character_audio_fallback = true := by
  have hmap : SFX_MAP (intent.impact_sfx.getD sNone) = none := by
    rw [h1]
    decide
  have hsfx : ∀ missing, sfx_stage fs intent ct sd conf missing
      = (none, none, missing) := by
    intro missing
    unfold sfx_stage
    rw [hmap]
    split_ifs <;> rfl
  simp only [process_audio_intent, hsfx]
  simp [attack_stage, h1, h2, h3, h4, h5, h6]

/-- C9 witness: the spec scenario — `luffy`/`gum_gum_pistol` with no
bespoke asset, no generic sfx requested, `intensity = high`, explosion
asset present. -/
theorem C9_witness :
    (intent0.impact_sfx.getD sNone = sNone ∧
      pyLower (ai_luffy.character.getD sEmpty) ≠ sEmpty ∧
      pyLower (ai_luffy.name.getD sEmpty) ≠ sEmpty ∧
      resolve_attack_audio fsSfxOnly (pyLower (ai_luffy.character.getD sEmpty))
        (pyLower (ai_luffy.name.getD sEmpty)) = none ∧
      SFX_MAP (fallback_sfx_name (ai_luffy.intensity.getD sMedium))
        = some sfx_explosion_path ∧
      fsSfxOnly sfx_explosion_path = true) ∧
    ((process_audio_intent fsSfxOnly intent0 sEmpty 1 ct0 10 1
        (some ai_luffy)).sfx_file = some sfx_explosion_path ∧
    (process_audio_intent fsSfxOnly intent0 sEmpty 1 ct0 10 1
        (some ai_luffy)).sfx_timestamp
      = some (calculate_sfx_timestamp (ct0.action.getD sStatic)
          (ct0.duration.getD 1)) ∧
    (process_audio_intent fsSfxOnly intent0 sEmpty 1 ct0 10 1
        (some ai_luffy)).character_audio_fallback = true) :=
  ⟨⟨rfl, by decide, by decide, by decide, rfl, by decide⟩,
   C9_amended fsSfxOnly intent0 sEmpty 1 ct0 10 1 ai_luffy
     sfx_explosion_path rfl (by decide) (by decide) (by decide) rfl
     (by decide)⟩

/-- C10 (confirmed): the compiler reads the attack name from the dict key
`name`; an attack intent that carries the attack only under `attack_name`
(the field used by the spec) with no `name` key is skipped entirely — the plan
equals the one computed with no attack intent at all, and in particular
`attack_audio = none`, `attack_timestamp = none`, no fallback sfx is
synthesized, and `character_audio_fallback = false`. -/
theorem C10_thm (fs : FS) (intent : AudioIntent) (nt : String) (dd : ℚ)
    (ct : CameraTiming) (sd conf : ℚ) (ai : AttackIntent)
    (h : ai.name = none) :
    process_audio_intent fs intent nt dd ct sd conf (some ai) =
      process_audio_intent fs intent nt dd ct sd conf none ∧
    (process_audio_intent fs intent nt dd ct sd conf (some ai)).attack_audio
      = none ∧
    (process_audio_intent fs intent nt dd ct sd conf
        (some ai)).attack_timestamp = none ∧
    (process_audio_intent fs intent nt dd ct sd conf
        (some ai)).character_audio_fallback = false := by
  have hs : ∀ s t lc, attack_stage fs intent ct dd s t lc (some ai)
      = attack_stage fs intent ct dd s t lc none :=
    fun s t lc => attack_stage_no_name fs intent ct dd s t lc ai h
  refine ⟨?_, ?_, ?_, ?_⟩ <;>
    simp only [process_audio_intent, hs, attack_stage_none]

/-- C10 witness: the attack supplied only under `attack_name`
(`luffy`/`gum_gum_pistol`) is ignored even with every asset present. -/
theorem C10_witness :
    ai_luffy_attack_name.name = none ∧
    (process_audio_intent fsAll intent0 sEmpty 1 ct0 10 1
        (some ai_luffy_attack_name) =
      process_audio_intent fsAll intent0 sEmpty 1 ct0 10 1 none ∧
    (process_audio_intent fsAll intent0 sEmpty 1 ct0 10 1
        (some ai_luffy_attack_name)).attack_audio = none ∧
    (process_audio_intent fsAll intent0 sEmpty 1 ct0 10 1
        (some ai_luffy_attack_name)).attack_timestamp = none ∧
    (process_audio_intent fsAll intent0 sEmpty 1 ct0 10 1
        (some ai_luffy_attack_name)).character_audio_fallback = false) :=
  ⟨rfl,
   C10_thm fsAll intent0 sEmpty 1 ct0 10 1 ai_luffy_attack_name rfl⟩

/-- The narration stage feeds the mix either the combined
dialogue-with-narration pad, the bare dialogue stream, or nothing. -/
lemma narration_mix_labels (np : Option String) (pl : String) :
    (narration_mix_stage np pl).2.1 = [Lbl.named lDWN] ∨
    (narration_mix_stage np pl).2.1 = [Lbl.stream 1] ∨
    (narration_mix_stage np pl).2.1 = [] := by
  cases np <;> simp only [narration_mix_stage] <;>
    first
    | (split_ifs <;> simp)
    | simp

/-- The ambience branch feeds the mix its pad or nothing. -/
lemma ambience_branch_labels (fs : FS) (a : Option String) (idx : Nat) :
    (ambience_branch fs a idx).2.1 = [Lbl.named lAmbVol] ∨
    (ambience_branch fs a idx).2.1 = [] := by
  cases a <;> simp only [ambience_branch] <;>
    first
    | (split_ifs <;> simp)
    | simp

/-- The background stage feeds the mix at most one of the bgm or ambience
pads. -/
lemma background_mix_labels (fs : FS) (b a : Option String) (d o : Bool)
    (idx : Nat) :
    (background_mix_stage fs b a d o idx).2.1 = [Lbl.named lBgmDucked] ∨
    (background_mix_stage fs b a d o idx).2.1 = [Lbl.named lBgmVol] ∨
    (background_mix_stage fs b a d o idx).2.1 = [Lbl.named lAmbVol] ∨
    (background_mix_stage fs b a d o idx).2.1 = [] := by
  cases b with
  | none =>
    rcases ambience_branch_labels fs a idx with h | h <;>
      simp [background_mix_stage, h]
  | some f =>
    by_cases hf : fs f = true
    · simp only [background_mix_stage, hf]
      split_ifs <;> simp
    · rcases ambience_branch_labels fs a idx with h | h <;>
        simp [background_mix_stage, hf, h]

/-- The stinger branch feeds the mix its pad or nothing. -/
lemma stinger_branch_labels (fs : FS) (i o : Option String) (idx : Nat) :
    (stinger_branch fs i o idx).2.1 = [Lbl.named lStingerVol] ∨
    (stinger_branch fs i o idx).2.1 = [] := by
  cases i <;> cases o <;> simp only [stinger_branch] <;>
    first
    | (split_ifs <;> simp)
    | simp

/-- The impact stage feeds the mix at most one of the sfx or stinger
pads. -/
lemma impact_mix_labels (fs : FS) (s : Option String) (ts : Option ℚ)
    (i o : Option String) (idx : Nat) :
    (impact_mix_stage fs s ts i o idx).2.1 = [Lbl.named lSfxVol] ∨
    (impact_mix_stage fs s ts i o idx).2.1 = [Lbl.named lStingerVol] ∨
    (impact_mix_stage fs s ts i o idx).2.1 = [] := by
  cases s with
  | none =>
    rcases stinger_branch_labels fs i o idx with h | h <;>
      simp [impact_mix_stage, h]
  | some f =>
    by_cases hc : fs f = true ∧ ts ≠ none
    · simp [impact_mix_stage, hc]
    · rcases stinger_branch_labels fs i o idx with h | h <;>
        simp [impact_mix_stage, hc, h]

/-- An existing, time-stamped sfx always wins the impact slot of the
mix. -/
lemma impact_mix_sfx (fs : FS) (f : String) (ts : Option ℚ)
    (i o : Option String) (idx : Nat) (hf : fs f = true) (ht : ts ≠ none) :
    (impact_mix_stage fs (some f) ts i o idx).2.1 = [Lbl.named lSfxVol] := by
  simp [impact_mix_stage, hf, ht]

/-- The attack track stage feeds the mix its pad or nothing. -/
lemma attack_track_labels (fs : FS) (aa : Option String) (ts : Option ℚ)
    (idx : Nat) :
    (attack_track_stage fs aa ts idx).2.1 = [Lbl.named lAttackVol] ∨
    (attack_track_stage fs aa ts idx).2.1 = [] := by
  cases aa <;> simp only [attack_track_stage] <;>
    first
    | (split_ifs <;> simp)
    | simp

/-- The input list of the mix is the concatenation of the four stage
contributions (the final `amix` branch does not change it). -/
lemma mix_audio_inputs_eq (fs : FS) (p : AudioPlan) (np : Option String) :
    (mix_scene_audio fs p np).audio_inputs =
      (narration_mix_stage np p.narration_placement).2.1
        ++ (background_mix_stage fs p.bgm_file p.ambience_file p.duck_bgm
              (np.isSome && (p.narration_placement == sOver))
              (narration_mix_stage np p.narration_placement).2.2).2.1
        ++ (impact_mix_stage fs p.sfx_file p.sfx_timestamp p.intro_stinger
              p.outro_stinger
              (background_mix_stage fs p.bgm_file p.ambience_file p.duck_bgm
                (np.isSome && (p.narration_placement == sOver))
                (narration_mix_stage np p.narration_placement).2.2).2.2).2.1
        ++ (attack_track_stage fs p.attack_audio p.attack_timestamp
              (impact_mix_stage fs p.sfx_file p.sfx_timestamp p.intro_stinger
                p.outro_stinger
                (background_mix_stage fs p.bgm_file p.ambience_file p.duck_bgm
                  (np.isSome && (p.narration_placement == sOver))
                  (narration_mix_stage np p.narration_placement).2.2).2.2).2.2).2.1 := by
  simp only [mix_scene_audio]
  split_ifs <;> rfl

/-- Combinatorial core of the impact exclusivity of the renderer: over all
possible stage contributions, the mix consumes at most one impact pad,
and the sfx pad excludes the stinger pad. -/
lemma count_impact_le (A B C D : List Lbl)
    (hA : A = [Lbl.named lDWN] ∨ A = [Lbl.stream 1] ∨ A = [])
    (hB : B = [Lbl.named lBgmDucked] ∨ B = [Lbl.named lBgmVol] ∨
      B = [Lbl.named lAmbVol] ∨ B = [])
    (hC : C = [Lbl.named lSfxVol] ∨ C = [Lbl.named lStingerVol] ∨ C = [])
    (hD : D = [Lbl.named lAttackVol] ∨ D = []) :
    ((A ++ B ++ C ++ D).count (Lbl.named lSfxVol)
      + (A ++ B ++ C ++ D).count (Lbl.named lStingerVol)) ≤ 1 ∧
    (C = [Lbl.named lSfxVol] →
      (A ++ B ++ C ++ D).contains (Lbl.named lSfxVol) = true ∧
      (A ++ B ++ C ++ D).contains (Lbl.named lStingerVol) = false) := by
  rcases hA with rfl | rfl | rfl <;> rcases hB with rfl | rfl | rfl | rfl <;>
    rcases hC with rfl | rfl | rfl <;> rcases hD with rfl | rfl <;>
    exact ⟨by decide, fun hc => by first | decide | (exact absurd hc (by decide))⟩

/-- C4 (amended): the three impact fields of the plan are not mutually
exclusive — all three can be non-none at once (see the counterexample);
the sfx-over-stinger priority lives in the layer manifest and in the
renderer: the mix consumes at most one impact track (sfx or stinger), and
whenever the sfx of the plan is present, existing and time-stamped, the sfx
track is mixed and no stinger track is. -/
theorem C4_amended (fs : FS) (p : AudioPlan) (np : Option String) :
    ((mix_scene_audio fs p np).audio_inputs.count (Lbl.named lSfxVol)
      + (mix_scene_audio fs p np).audio_inputs.count (Lbl.named lStingerVol))
      ≤ 1 ∧
    (∀ f, p.sfx_file = some f → fs f = true → p.sfx_timestamp ≠ none →
      (mix_scene_audio fs p np).audio_inputs.contains (Lbl.named lSfxVol)
        = true ∧
      (mix_scene_audio fs p np).audio_inputs.contains (Lbl.named lStingerVol)
        = false) := by
  simp only [mix_audio_inputs_eq]
  refine ⟨(count_impact_le _ _ _ _ (narration_mix_labels _ _)
    (background_mix_labels _ _ _ _ _ _) (impact_mix_labels _ _ _ _ _ _)
    (attack_track_labels _ _ _ _)).1, ?_⟩
  intro f hsf hf ht
  exact (count_impact_le _ _ _ _ (narration_mix_labels _ _)
    (background_mix_labels _ _ _ _ _ _) (impact_mix_labels _ _ _ _ _ _)
    (attack_track_labels _ _ _ _)).2
    (by rw [hsf]; exact impact_mix_sfx _ f _ _ _ _ hf ht)

/-- C4 witness: the amended statement at the all-impact plan of the
counterexample — the renderer mixes the sfx track and no stinger track
even though all three plan slots are filled. -/
theorem C4_witness :
    ((mix_scene_audio fsAll
        (process_audio_intent fsAll intentAllImpact sEmpty 1 ct0 10 1 none)
        none).audio_inputs.count (Lbl.named lSfxVol)
      + (mix_scene_audio fsAll
          (process_audio_intent fsAll intentAllImpact sEmpty 1 ct0 10 1 none)
          none).audio_inputs.count (Lbl.named lStingerVol)) ≤ 1 ∧
    (process_audio_intent fsAll intentAllImpact sEmpty 1 ct0 10 1
        none).sfx_file = some sfx_punch_path ∧
    (process_audio_intent fsAll intentAllImpact sEmpty 1 ct0 10 1
        none).sfx_timestamp = some 0 ∧
    ((mix_scene_audio fsAll
        (process_audio_intent fsAll intentAllImpact sEmpty 1 ct0 10 1 none)
        none).audio_inputs.contains (Lbl.named lSfxVol) = true ∧
    (mix_scene_audio fsAll
        (process_audio_intent fsAll intentAllImpact sEmpty 1 ct0 10 1 none)
        none).audio_inputs.contains (Lbl.named lStingerVol) = false) :=
  ⟨(C4_amended fsAll
      (process_audio_intent fsAll intentAllImpact sEmpty 1 ct0 10 1 none)
      none).1,
   by with_unfolding_all decide,
   by with_unfolding_all decide,
   (C4_amended fsAll
      (process_audio_intent fsAll intentAllImpact sEmpty 1 ct0 10 1 none)
      none).2 sfx_punch_path (by with_unfolding_all decide) rfl
     (by with_unfolding_all decide)⟩

end Manga
